import Mathlib

/-!
Verification of the ray-generation and batched-sampling engine of
`utils/dataload.py` (functions `load_data`, `rays_dataset`, and the class
`RayGenerator` with its method `select`).

Shallow embedding conventions:
- Decoded images, per-split transform JSON files, and the natsort file
  ordering are the external Dataset Loader collaborator's concern; the
  embedding takes them as already-decoded, already-ordered Lean values
  (`DatasetFiles`).
- numpy/torch float arithmetic is modelled over `ℚ`; `np.tan` is an abstract
  parameter `tan : ℚ → ℚ` of `load_data`.
- A 2-d tensor is a function `Nat → Nat → ℚ` (row, column); shapes are
  carried separately where a claim needs them.
- Python exceptions (IndexError from `frames[i]`, NameError from the leaked
  loop variable `img`, KeyError from dict lookup, torch RuntimeErrors from
  `torch.randint`) become `Except Err`.
- `torch.randint`'s pseudo-random stream is an abstract stream of naturals
  (`Rng`), with each draw mapped into range by `%`, which models the
  guarantee that every drawn index lies in `[low, high)`.
-/

/-- Python exceptions that the embedded code can raise. -/
inductive Err where
  /-- `list[i]` with `i` out of range (e.g. `train_transform['frames'][i]`). -/
  | indexError
  /-- reading a local variable that was never assigned (the `img` variable
  when the test loop ran zero times). -/
  | nameError
  /-- dict lookup with a missing key (`self.rays_dataset[mode]`). -/
  | keyError
  /-- `torch.stack` applied to an empty list of tensors. -/
  | stackEmpty
  /-- `torch.randint(low, high, (N,))` with negative `N`: tensor creation
  rejects a negative dimension. -/
  | negativeDim
  /-- `torch.randint(low, high, ...)` with `high ≤ low`: `random_` rejects
  an empty range. -/
  | randRange
deriving DecidableEq, Repr, Inhabited

/-- A decoded color image: `cv2.imread(...)` converted to RGB and divided by
255.0, shape H×W×3.  `pix i j ch` is the channel `ch` value of the pixel at
row `i`, column `j`. -/
structure Image where
  H : Nat
  W : Nat
  pix : Nat → Nat → Nat → ℚ

instance : Inhabited Image := ⟨⟨0, 0, fun _ _ _ => 0⟩⟩

/-- One entry of a transform JSON's `frames` list.  `transform_matrix` is the
4×4 camera-to-world matrix (the embedding keeps the whole frame as the
sample's opaque `metadata`). -/
structure Frame where
  transform_matrix : Nat → Nat → ℚ

instance : Inhabited Frame := ⟨⟨fun _ _ => 0⟩⟩

/-- A parsed `transforms_{split}.json` file. -/
structure TransformsJson where
  camera_angle_x : ℚ
  frames : List Frame

/-- One loaded sample, as built by the loops of `load_data`: the dict
`{'img': ..., 'transform': ..., 'metadata': ...}`, with the two extra images
present only for test-split samples. -/
structure Sample where
  img : Image
  img_depth : Option Image
  img_normal : Option Image
  transform : Nat → Nat → ℚ
  metadata : Frame

instance : Inhabited Sample :=
  ⟨⟨default, none, none, fun _ _ => 0, default⟩⟩

/-- Everything `load_data` reads from the dataset directory, already decoded
and already in natsorted order (directory walking, globbing, image decoding
and JSON parsing are the external collaborator). -/
structure DatasetFiles where
  trainImgs : List Image
  valImgs : List Image
  testImgs : List Image
  testDepthImgs : List Image
  testNormalImgs : List Image
  trainJson : TransformsJson
  testJson : TransformsJson
  valJson : TransformsJson

/-- The `samples` dict returned by `load_data`, keys 'train', 'test', 'val'. -/
structure Samples where
  train : List Sample
  test : List Sample
  val : List Sample

/-- The `cam_params` triple `[H, W, f]` returned by `load_data`. -/
structure CamParams where
  H : Nat
  W : Nat
  f : ℚ

instance : Inhabited CamParams := ⟨⟨0, 0, 0⟩⟩

/-- The train/val sample loop of `load_data`: for `i in range(num_imgs)`,
pair image `i` with `transform['frames'][i]`; indexing past the end of
`frames` raises IndexError, while extra frames beyond the image count are
never touched. -/
def buildSamples : List Image → List Frame → Except Err (List Sample)
  | [], _ => .ok []
  | _ :: _, [] => .error .indexError
  | img :: imgs, fr :: frs =>
    match buildSamples imgs frs with
    | .error e => .error e
    | .ok rest =>
      .ok ({ img := img, img_depth := none, img_normal := none,
             transform := fr.transform_matrix, metadata := fr } :: rest)

/-- The test sample loop of `load_data`: for `i in range(num_test)`, read the
color, depth and normal images at index `i` and `frames[i]`; running out of
any of the four lists raises IndexError. -/
def buildTestSamples :
    List Image → List Image → List Image → List Frame →
      Except Err (List Sample)
  | [], _, _, _ => .ok []
  | _ :: _, [], _, _ => .error .indexError
  | _ :: _, _, [], _ => .error .indexError
  | _ :: _, _, _, [] => .error .indexError
  | img :: imgs, d :: ds, n :: ns, fr :: frs =>
    match buildTestSamples imgs ds ns frs with
    | .error e => .error e
    | .ok rest =>
      .ok ({ img := img, img_depth := some d, img_normal := some n,
             transform := fr.transform_matrix, metadata := fr } :: rest)

/-- Embedding of `load_data` (dataload.py lines 12–96).  After the three
sample loops, `fov = train_transform['camera_angle_x']`, and `H, W` are read
from `img.shape[:2]` where `img` is the loop variable left over from the test
loop — the last decoded test image; NameError if the test loop never ran.
Then `f = W / (2 * np.tan(fov/2))` and `cam_params = [H, W, f]`. -/
def load_data (files : DatasetFiles) (tan : ℚ → ℚ) :
    Except Err (Samples × CamParams) :=
  match buildSamples files.trainImgs files.trainJson.frames with
  | .error e => .error e
  | .ok train_samples =>
    match buildSamples files.valImgs files.valJson.frames with
    | .error e => .error e
    | .ok val_samples =>
      match buildTestSamples files.testImgs files.testDepthImgs
          files.testNormalImgs files.testJson.frames with
      | .error e => .error e
      | .ok test_samples =>
        match files.testImgs.getLast? with
        | none => .error .nameError
        | some img =>
          .ok ({ train := train_samples, test := test_samples,
                 val := val_samples },
               { H := img.H, W := img.W,
                 f := (img.W : ℚ) /
                   (2 * tan (files.trainJson.camera_angle_x / 2)) })

/-- Modelled from the spec: `utils.xyz.rays_single_cam` is imported by
dataload.py but its source is not in the repository snapshot.  Per spec §4.1,
given `cam_params = (H, W, f)` it returns the 3×(H·W) camera-space ray basis
whose column `p` (pixel row `i = p / W`, column `j = p % W`, row-major) is
`((j - W/2)/f, -(i - H/2)/f, -1)`, unnormalized. -/
def rays_single_cam (cp : CamParams) : Nat → Nat → ℚ :=
  fun a p =>
    if a = 0 then ((p % cp.W : Nat) - (cp.W : ℚ) / 2) / cp.f
    else if a = 1 then -(((p / cp.W : Nat) - (cp.H : ℚ) / 2) / cp.f)
    else -1

/-- `torch.matmul(R, M)` for a 3×3 matrix `R` against a 3×n matrix `M`
(entry-wise: row `r`, column `c` of the product).  Only rows/columns 0–2 of
`R` are read, which is exactly the `[:3,:3]` slice taken in
`rays_dataset`. -/
def matmul3 (R M : Nat → Nat → ℚ) : Nat → Nat → ℚ :=
  fun r c => R r 0 * M 0 c + R r 1 * M 1 c + R r 2 * M 2 c

/-- One per-split ray pool: a 6×`width` array, `entry r c` being row `r`,
column `c`. -/
structure Pool where
  width : Nat
  entry : Nat → Nat → ℚ

instance : Inhabited Pool := ⟨⟨0, fun _ _ => 0⟩⟩

/-- The `rays` dict built by `rays_dataset`, keys 'train', 'test', 'val'. -/
structure Pools where
  train : Pool
  test : Pool
  val : Pool

instance : Inhabited Pools := ⟨⟨default, default, default⟩⟩

/-- The loop body of `rays_dataset` (dataload.py lines 105–111) for one
split.  `torch.stack` of the per-sample transforms fails on an empty split;
otherwise, with `transf_mats[b] = samples[k][b]['transform']`:
`rays_dataset = transf_mats[:,:3,:3] @ rays_1_cam` (B×3×HW),
`cam_origins = transf_mats[:,:3,3:].expand(B,3,HW)` (B×3×HW),
then `cat(dim=1)` (B×6×HW), `permute(1,0,2)` (6×B×HW) and `reshape(6,-1)`
(6×B·HW, row-major over (b, p) as reshape of a contiguous copy). -/
def rays_dataset_split (cp : CamParams) (ss : List Sample)
    (rays_1_cam : Nat → Nat → ℚ) : Except Err Pool :=
  if ss.length = 0 then .error .stackEmpty
  else
    .ok
      { width := ss.length * (cp.H * cp.W),
        entry := fun r c =>
          let transf_mats : Nat → Nat → Nat → ℚ :=
            fun b => (ss.getD b default).transform
          let dirs : Nat → Nat → Nat → ℚ :=
            fun b => matmul3 (transf_mats b) rays_1_cam
          let cam_origins : Nat → Nat → Nat → ℚ :=
            fun b r _ => transf_mats b r 3
          let catted : Nat → Nat → Nat → ℚ :=
            fun b r p => if r < 3 then cam_origins b r p else dirs b (r - 3) p
          let permuted : Nat → Nat → Nat → ℚ :=
            fun r b p => catted b r p
          permuted r (c / (cp.H * cp.W)) (c % (cp.H * cp.W)) }

/-- Embedding of `rays_dataset` (dataload.py lines 98–113): compute the
shared basis `rays_1_cam = rays_single_cam(cam_params)` once, then build one
pool per key in `['train', 'test', 'val']`. -/
def rays_dataset (samples : Samples) (cam_params : CamParams) :
    Except Err Pools :=
  match rays_dataset_split cam_params samples.train
      (rays_single_cam cam_params) with
  | .error e => .error e
  | .ok ptrain =>
    match rays_dataset_split cam_params samples.test
        (rays_single_cam cam_params) with
    | .error e => .error e
    | .ok ptest =>
      match rays_dataset_split cam_params samples.val
          (rays_single_cam cam_params) with
      | .error e => .error e
      | .ok pval => .ok { train := ptrain, test := ptest, val := pval }

/-- The state torch's pseudo-random number generator: an abstract stream
`vals` with a cursor `next`; each `torch.randint` draw consumes one stream
element. -/
structure Rng where
  next : Nat
  vals : Nat → Nat

/-- Model of `torch.randint(low, high, (N,))`.  A negative `N` is rejected
when the result tensor is allocated; then `random_` requires a non-empty
range `low < high` (even for zero draws); otherwise it returns `N` values in
`[low, high)` (each stream element reduced into range by `%`, modelling the
uniform draw's range guarantee) and advances the generator. -/
def torch_randint (low high : Nat) (N : Int) (g : Rng) :
    Except Err (List Nat × Rng) :=
  if N < 0 then .error .negativeDim
  else if high ≤ low then .error .randRange
  else
    .ok ((List.range N.toNat).map
           (fun k => low + g.vals (g.next + k) % (high - low)),
         { next := g.next + N.toNat, vals := g.vals })

/-- Python dict lookup on the `rays` dict (keys 'train', 'test', 'val'):
KeyError on any other key. -/
def Pools.lookup (ps : Pools) (mode : String) : Except Err Pool :=
  if mode = "train" then .ok ps.train
  else if mode = "test" then .ok ps.test
  else if mode = "val" then .ok ps.val
  else .error .keyError

/-- Python dict lookup on the `samples` dict (keys 'train', 'test', 'val'):
KeyError on any other key. -/
def Samples.lookup (ss : Samples) (mode : String) : Except Err (List Sample) :=
  if mode = "train" then .ok ss.train
  else if mode = "test" then .ok ss.test
  else if mode = "val" then .ok ss.val
  else .error .keyError

/-- The `RayGenerator` object after `__init__`: fields assigned in
dataload.py lines 116–123. -/
structure RayGenerator where
  samples : Samples
  cam_params : CamParams
  H : Nat
  W : Nat
  f : ℚ
  rays_dataset : Pools

instance : Inhabited RayGenerator :=
  ⟨⟨⟨[], [], []⟩, default, 0, 0, 0, default⟩⟩

/-- Embedding of `RayGenerator.__init__`: run `load_data`, store `samples`
and `cam_params` (unpacking `H, W, f`), then build and store the per-split
ray pools with `rays_dataset`.  (Declared outside the `RayGenerator`
namespace so that `rays_dataset` refers to the top-level function, not the
structure field.) -/
def rayGeneratorInit (files : DatasetFiles) (tan : ℚ → ℚ) :
    Except Err RayGenerator :=
  match load_data files tan with
  | .error e => .error e
  | .ok (samples, cam_params) =>
    match rays_dataset samples cam_params with
    | .error e => .error e
    | .ok pools =>
      .ok { samples := samples, cam_params := cam_params,
            H := cam_params.H, W := cam_params.W, f := cam_params.f,
            rays_dataset := pools }

/-- The pair returned by `select`: `rays` is the N×6 result
(`data[:, ray_ids].transpose(1,0)`, so row `k` is the function sending a
component index `r < 6` to `data[r, ray_ids[k]]`), and `ids` is `ray_ids`. -/
structure RaySel where
  rays : List (Nat → ℚ)
  ids : List Nat

/-- Embedding of `RayGenerator.select` (dataload.py lines 125–138):
`data = self.rays_dataset[mode]`, `samples = self.samples[mode]`,
`ray_ids = torch.randint(0, data.size(1), (N,))`,
`rays = data[:, ray_ids].transpose(1, 0)`. -/
def RayGenerator.select (rg : RayGenerator) (mode : String) (N : Int)
    (g : Rng) : Except Err (RaySel × Rng) :=
  match rg.rays_dataset.lookup mode with
  | .error e => .error e
  | .ok data =>
    match rg.samples.lookup mode with
    | .error e => .error e
    | .ok _samples =>
      match torch_randint 0 data.width N g with
      | .error e => .error e
      | .ok (ray_ids, g') =>
        .ok ({ rays := ray_ids.map (fun i => fun r => data.entry r i),
               ids := ray_ids }, g')

/-- The full mutable state visible to a `select` call: the engine object and
the process-wide torch generator. -/
structure EngineState where
  rg : RayGenerator
  rng : Rng

/-- A `select` call as a state transition: the engine object itself is never
assigned to in `select`, so the post-state carries `s.rg` unchanged and only
the generator advances. -/
def selectS (s : EngineState) (mode : String) (N : Int) :
    Except Err (RaySel × EngineState) :=
  match s.rg.select mode N s.rng with
  | .error e => .error e
  | .ok (res, g') => .ok (res, { rg := s.rg, rng := g' })

/-- A concrete 1×1 decoded image, used by the closed witness instances. -/
def imgW : Image := { H := 1, W := 1, pix := fun _ _ _ => 1/2 }

/-- A concrete frame whose transform is the 4×4 identity matrix. -/
def idFrame : Frame :=
  { transform_matrix := fun r c => if r = c then 1 else 0 }

/-- A concrete transforms JSON with field of view 1 and a single frame. -/
def jsonW : TransformsJson := { camera_angle_x := 1, frames := [idFrame] }

/-- A concrete, well-aligned dataset: one 1×1 image per split, one frame per
split. -/
def filesW : DatasetFiles :=
  { trainImgs := [imgW], valImgs := [imgW], testImgs := [imgW],
    testDepthImgs := [imgW], testNormalImgs := [imgW],
    trainJson := jsonW, testJson := jsonW, valJson := jsonW }

/-- A concrete stand-in for `np.tan`, constant 1. -/
def tanW : ℚ → ℚ := fun _ => 1

/-- The engine constructed from `filesW` (construction succeeds, so the
`default` branch is dead). -/
def rgW : RayGenerator :=
  match rayGeneratorInit filesW tanW with
  | .ok rg => rg
  | .error _ => default

/-- A concrete generator state: cursor 0 over the all-zero stream. -/
def gW : Rng := { next := 0, vals := fun _ => 0 }

/-- A concrete engine-plus-generator state built from `rgW`. -/
def sW : EngineState := { rg := rgW, rng := gW }

/-- A dataset identical to `filesW` except that the train split has two pose
entries for its single image. -/
def filesExtraPose : DatasetFiles :=
  { filesW with trainJson := { camera_angle_x := 1, frames := [idFrame, idFrame] } }

/-- C4: for every split argument not in {train, test, val} and every N,
`select(split, N)` fails with a KeyError from the `self.rays_dataset[mode]`
dict lookup; it never returns rays or an empty result. -/
theorem select_invalid_split_errors (s : EngineState) (mode : String) (N : Int)
    (h1 : mode ≠ "train") (h2 : mode ≠ "test") (h3 : mode ≠ "val") :
    selectS s mode N = .error Err.keyError := by
  simp [selectS, RayGenerator.select, Pools.lookup, h1, h2, h3]

/-- Witness for C4: the concrete call `select('foo', 5)` on the engine built
from `filesW` raises KeyError. -/
theorem select_invalid_split_errors_witness :
    selectS sW "foo" 5 = .error Err.keyError :=
  select_invalid_split_errors sW "foo" 5 (by decide) (by decide) (by decide)

/-- C10: for every valid split and strictly negative N, `select` raises the
negative-dimension error from `torch.randint(0, width, (N,))` before any
index is drawn; no rays are returned and (the model producing no post-state)
the engine's samples and pools are untouched. -/
theorem select_negative_N_errors (s : EngineState) (mode : String) (N : Int)
    (hmode : mode = "train" ∨ mode = "test" ∨ mode = "val") (hN : N < 0) :
    selectS s mode N = .error Err.negativeDim := by
  rcases hmode with h | h | h <;> subst h <;>
    simp [selectS, RayGenerator.select, Pools.lookup, Samples.lookup,
      torch_randint, hN]

/-- Witness for C10: the concrete call `select('train', -1)` on the engine
built from `filesW` raises the negative-dimension error. -/
theorem select_negative_N_errors_witness :
    selectS sW "train" (-1) = .error Err.negativeDim :=
  select_negative_N_errors sW "train" (-1) (Or.inl rfl) (by decide)

/-- C8: for every valid split (with the non-empty pool every constructed
split has), `select(split, 0)` succeeds and returns a rays array with zero
rows and an empty id sequence. -/
theorem select_zero_returns_empty (s : EngineState) (mode : String)
    (hmode : mode = "train" ∨ mode = "test" ∨ mode = "val")
    (hw : 0 < s.rg.rays_dataset.train.width ∧
          0 < s.rg.rays_dataset.test.width ∧
          0 < s.rg.rays_dataset.val.width) :
    ∃ s', selectS s mode 0 = .ok ({ rays := [], ids := [] }, s') := by
  obtain ⟨hw1, hw2, hw3⟩ := hw
  rcases hmode with h | h | h <;> subst h
  · exact ⟨⟨s.rg, { next := s.rng.next + 0, vals := s.rng.vals }⟩, by
      simp [selectS, RayGenerator.select, Pools.lookup, Samples.lookup,
        torch_randint, Nat.not_le.mpr hw1]⟩
  · exact ⟨⟨s.rg, { next := s.rng.next + 0, vals := s.rng.vals }⟩, by
      simp [selectS, RayGenerator.select, Pools.lookup, Samples.lookup,
        torch_randint, Nat.not_le.mpr hw2]⟩
  · exact ⟨⟨s.rg, { next := s.rng.next + 0, vals := s.rng.vals }⟩, by
      simp [selectS, RayGenerator.select, Pools.lookup, Samples.lookup,
        torch_randint, Nat.not_le.mpr hw3]⟩

/-- Witness for C8: the concrete call `select('val', 0)` on the engine built
from `filesW` returns a 0×6 rays array and an empty id list. -/
theorem select_zero_returns_empty_witness :
    ∃ s', selectS sW "val" 0 = .ok ({ rays := [], ids := [] }, s') :=
  select_zero_returns_empty sW "val" (Or.inr (Or.inr rfl))
    ⟨by decide, by decide, by decide⟩

/-- C7: whenever a `select` call succeeds, the post-state's engine object is
untouched — its samples dict, its `cam_params` triple and all three per-split
ray pools equal the pre-state's; only the generator state differs. -/
theorem select_mutates_only_rng (s : EngineState) (mode : String) (N : Int)
    (sel : RaySel) (s' : EngineState)
    (h : selectS s mode N = .ok (sel, s')) :
    s'.rg.samples = s.rg.samples ∧ s'.rg.cam_params = s.rg.cam_params ∧
      s'.rg.rays_dataset = s.rg.rays_dataset := by
  unfold selectS at h
  cases hsel : s.rg.select mode N s.rng with
  | error e => rw [hsel] at h; exact absurd h (by simp)
  | ok p =>
    obtain ⟨res, g'⟩ := p
    rw [hsel] at h
    simp only [Except.ok.injEq, Prod.mk.injEq] at h
    rw [← h.2]
    exact ⟨rfl, rfl, rfl⟩

/-- The value of the concrete successful call `select('train', 2)` on the
engine built from `filesW` (the error branch is dead). -/
def selResW : RaySel × EngineState :=
  match selectS sW "train" 2 with
  | .ok p => p
  | .error _ => ⟨⟨[], []⟩, sW⟩

/-- Witness for C7: after the concrete call `select('train', 2)` on the
engine built from `filesW`, the samples, intrinsics and pools are unchanged. -/
theorem select_mutates_only_rng_witness :
    selResW.2.rg.samples = sW.rg.samples ∧
      selResW.2.rg.cam_params = sW.rg.cam_params ∧
      selResW.2.rg.rays_dataset = sW.rg.rays_dataset :=
  select_mutates_only_rng sW "train" 2 selResW.1 selResW.2 rfl

/-- Dict lookup of 'train' on the pools dict. -/
theorem pools_lookup_train (ps : Pools) : ps.lookup "train" = .ok ps.train := rfl

/-- Dict lookup of 'test' on the pools dict. -/
theorem pools_lookup_test (ps : Pools) : ps.lookup "test" = .ok ps.test := rfl

/-- Dict lookup of 'val' on the pools dict. -/
theorem pools_lookup_val (ps : Pools) : ps.lookup "val" = .ok ps.val := rfl

/-- Dict lookup of 'train' on the samples dict. -/
theorem samples_lookup_train (ss : Samples) :
    ss.lookup "train" = .ok ss.train := rfl

/-- Dict lookup of 'test' on the samples dict. -/
theorem samples_lookup_test (ss : Samples) : ss.lookup "test" = .ok ss.test := rfl

/-- Dict lookup of 'val' on the samples dict. -/
theorem samples_lookup_val (ss : Samples) : ss.lookup "val" = .ok ss.val := rfl

/-- The id list produced by a successful `torch.randint(0, w, (N,))` draw:
draw `k` is stream element `next + k` reduced into `[0, w)`. -/
def drawnIds (w : Nat) (n : Nat) (g : Rng) : List Nat :=
  (List.range n).map (fun k => 0 + g.vals (g.next + k) % (w - 0))

/-- Evaluation of a successful `select` call: when the split lookup yields
`pool` and the samples lookup succeeds, `N` is non-negative and the pool is
non-empty, `select` returns the drawn ids and, for each id, the id-indexed
pool column as a row. -/
theorem select_eq_of_lookup (rg : RayGenerator) (mode : String) (N : Int)
    (g : Rng) (pool : Pool) (sl : List Sample)
    (hpool : rg.rays_dataset.lookup mode = .ok pool)
    (hsamp : rg.samples.lookup mode = .ok sl)
    (hN : ¬ N < 0) (hw : 0 < pool.width) :
    rg.select mode N g = .ok
      ({ rays := (drawnIds pool.width N.toNat g).map
            (fun i => fun r => pool.entry r i),
         ids := drawnIds pool.width N.toNat g },
       { next := g.next + N.toNat, vals := g.vals }) := by
  unfold RayGenerator.select
  rw [hpool, hsamp]
  unfold torch_randint
  simp only [if_neg hN, if_neg (Nat.not_le.mpr hw)]
  rfl

/-- Evaluation of a successful `select` call as a state transition. -/
theorem selectS_eq_of_lookup (s : EngineState) (mode : String) (N : Int)
    (pool : Pool) (sl : List Sample)
    (hpool : s.rg.rays_dataset.lookup mode = .ok pool)
    (hsamp : s.rg.samples.lookup mode = .ok sl)
    (hN : ¬ N < 0) (hw : 0 < pool.width) :
    selectS s mode N = .ok
      ({ rays := (drawnIds pool.width N.toNat s.rng).map
            (fun i => fun r => pool.entry r i),
         ids := drawnIds pool.width N.toNat s.rng },
       { rg := s.rg,
         rng := { next := s.rng.next + N.toNat, vals := s.rng.vals } }) := by
  unfold selectS
  rw [select_eq_of_lookup s.rg mode N s.rng pool sl hpool hsamp hN hw]

/-- C5: for every valid split and every N strictly greater than that split's
pool width (the hypothesis bounds N below by all three widths), `select`
still succeeds — indices are drawn with replacement, so no upper bound on N
is enforced — and the returned batch has exactly N ids (duplicates
permitted). -/
theorem select_above_pool_width_succeeds (s : EngineState) (mode : String)
    (N : Int)
    (hmode : mode = "train" ∨ mode = "test" ∨ mode = "val")
    (hw : 0 < s.rg.rays_dataset.train.width ∧
          0 < s.rg.rays_dataset.test.width ∧
          0 < s.rg.rays_dataset.val.width)
    (hN : (s.rg.rays_dataset.train.width : Int) < N ∧
          (s.rg.rays_dataset.test.width : Int) < N ∧
          (s.rg.rays_dataset.val.width : Int) < N) :
    ∃ sel s', selectS s mode N = .ok (sel, s') ∧
      sel.ids.length = N.toNat := by
  obtain ⟨hw1, hw2, hw3⟩ := hw
  obtain ⟨hN1, hN2, hN3⟩ := hN
  have hNneg : ¬ N < 0 := by omega
  rcases hmode with h | h | h <;> subst h
  · exact ⟨_, _,
      selectS_eq_of_lookup s "train" N _ _ (pools_lookup_train _)
        (samples_lookup_train _) hNneg hw1,
      by simp [drawnIds]⟩
  · exact ⟨_, _,
      selectS_eq_of_lookup s "test" N _ _ (pools_lookup_test _)
        (samples_lookup_test _) hNneg hw2,
      by simp [drawnIds]⟩
  · exact ⟨_, _,
      selectS_eq_of_lookup s "val" N _ _ (pools_lookup_val _)
        (samples_lookup_val _) hNneg hw3,
      by simp [drawnIds]⟩

/-- Witness for C5: on the engine built from `filesW` (every pool has width
1), the concrete call `select('train', 2)` with N = 2 above the pool width
succeeds with 2 ids. -/
theorem select_above_pool_width_succeeds_witness :
    ∃ sel s', selectS sW "train" 2 = .ok (sel, s') ∧
      sel.ids.length = (2 : Int).toNat :=
  select_above_pool_width_succeeds sW "train" 2 (Or.inl rfl)
    ⟨by decide, by decide, by decide⟩ ⟨by decide, by decide, by decide⟩

/-- Element `k` of a drawn id list is stream element `next + k` reducedmod
the pool width. -/
theorem drawnIds_getElem (w n : Nat) (g : Rng) (k : Nat) (hk : k < n) :
    (drawnIds w n g)[k]? = some (g.vals (g.next + k) % w) := by
  simp [drawnIds, List.getElem?_range, hk]

/-- Post-condition of a successful `select` call against whichever pool the
split lookup found: N rows, N ids, each id in range, and row `k` equal to
pool column `ids[k]` in the pool's six-component layout. -/
theorem select_post (s : EngineState) (mode : String) (N : Int)
    (pool : Pool) (sl : List Sample)
    (hpool : s.rg.rays_dataset.lookup mode = .ok pool)
    (hsamp : s.rg.samples.lookup mode = .ok sl)
    (hNneg : ¬ N < 0) (hw : 0 < pool.width) :
    ∃ sel s', selectS s mode N = .ok (sel, s') ∧
      sel.ids.length = N.toNat ∧ sel.rays.length = N.toNat ∧
      ∀ k, k < N.toNat → ∃ i, sel.ids[k]? = some i ∧ i < pool.width ∧
        sel.rays[k]? = some (fun r => pool.entry r i) := by
  refine ⟨_, _, selectS_eq_of_lookup s mode N pool sl hpool hsamp hNneg hw,
    by simp [drawnIds], by simp [drawnIds], ?_⟩
  intro k hk
  refine ⟨s.rng.vals (s.rng.next + k) % pool.width, ?_, Nat.mod_lt _ hw, ?_⟩
  · exact drawnIds_getElem pool.width N.toNat s.rng k hk
  · show ((drawnIds pool.width N.toNat s.rng).map
        (fun i => fun r => pool.entry r i))[k]? = _
    rw [List.getElem?_map, drawnIds_getElem pool.width N.toNat s.rng k hk]
    rfl

/-- C2: for every valid split and positive N, `select(split, N)` returns
exactly N rows and N ids, every id lies in `[0, poolWidth)`, and row `k` of
the returned rays equals column `ids[k]` of that split's pool in the same
six-component layout, in the order of `ids`. -/
theorem select_returns_indexed_pool_columns (s : EngineState) (mode : String)
    (N : Int)
    (hmode : mode = "train" ∨ mode = "test" ∨ mode = "val")
    (hw : 0 < s.rg.rays_dataset.train.width ∧
          0 < s.rg.rays_dataset.test.width ∧
          0 < s.rg.rays_dataset.val.width)
    (hN : 0 < N) :
    ∃ pool, s.rg.rays_dataset.lookup mode = .ok pool ∧
      ∃ sel s', selectS s mode N = .ok (sel, s') ∧
        sel.ids.length = N.toNat ∧ sel.rays.length = N.toNat ∧
        ∀ k, k < N.toNat → ∃ i, sel.ids[k]? = some i ∧ i < pool.width ∧
          sel.rays[k]? = some (fun r => pool.entry r i) := by
  obtain ⟨hw1, hw2, hw3⟩ := hw
  have hNneg : ¬ N < 0 := by omega
  rcases hmode with h | h | h <;> subst h
  · exact ⟨_, pools_lookup_train _,
      select_post s "train" N _ _ (pools_lookup_train _)
        (samples_lookup_train _) hNneg hw1⟩
  · exact ⟨_, pools_lookup_test _,
      select_post s "test" N _ _ (pools_lookup_test _)
        (samples_lookup_test _) hNneg hw2⟩
  · exact ⟨_, pools_lookup_val _,
      select_post s "val" N _ _ (pools_lookup_val _)
        (samples_lookup_val _) hNneg hw3⟩

/-- Witness for C2: the concrete call `select('test', 3)` on the engine built
from `filesW` returns 3 pool-indexed rows and 3 in-range ids. -/
theorem select_returns_indexed_pool_columns_witness :
    ∃ pool, sW.rg.rays_dataset.lookup "test" = .ok pool ∧
      ∃ sel s', selectS sW "test" 3 = .ok (sel, s') ∧
        sel.ids.length = (3 : Int).toNat ∧ sel.rays.length = (3 : Int).toNat ∧
        ∀ k, k < (3 : Int).toNat → ∃ i, sel.ids[k]? = some i ∧ i < pool.width ∧
          sel.rays[k]? = some (fun r => pool.entry r i) :=
  select_returns_indexed_pool_columns sW "test" 3 (Or.inr (Or.inl rfl))
    ⟨by decide, by decide, by decide⟩ (by decide)

/-- C6: whenever `load_data` succeeds, the shared intrinsics triple it
returns is `[H, W, f]` with `H`, `W` the height and width of a decoded image
of the dataset (the last test-split image, the leaked loop variable) and
`f = W / (2 * tan(fov/2))` where `fov` is the `camera_angle_x` read from the
training split's transform description; this one value is derived once and
is the only intrinsics value the engine ever stores. -/
theorem cam_params_from_train_fov_and_image_shape (files : DatasetFiles)
    (tan : ℚ → ℚ) (samples : Samples) (cp : CamParams)
    (h : load_data files tan = .ok (samples, cp)) :
    ∃ img, files.testImgs.getLast? = some img ∧
      cp.H = img.H ∧ cp.W = img.W ∧
      cp.f = (img.W : ℚ) / (2 * tan (files.trainJson.camera_angle_x / 2)) := by
  unfold load_data at h
  cases h1 : buildSamples files.trainImgs files.trainJson.frames with
  | error e => rw [h1] at h; exact absurd h (by simp)
  | ok ts =>
    rw [h1] at h
    cases h2 : buildSamples files.valImgs files.valJson.frames with
    | error e => rw [h2] at h; exact absurd h (by simp)
    | ok vs =>
      rw [h2] at h
      cases h3 : buildTestSamples files.testImgs files.testDepthImgs
          files.testNormalImgs files.testJson.frames with
      | error e => rw [h3] at h; exact absurd h (by simp)
      | ok tests =>
        rw [h3] at h
        cases h4 : files.testImgs.getLast? with
        | none => rw [h4] at h; exact absurd h (by simp)
        | some img =>
          rw [h4] at h
          simp only [Except.ok.injEq, Prod.mk.injEq] at h
          exact ⟨img, rfl, by rw [← h.2], by rw [← h.2], by rw [← h.2]⟩

/-- The value of the concrete successful `load_data` run on `filesW` (the
error branch is dead). -/
def loadResW : Samples × CamParams :=
  match load_data filesW tanW with
  | .ok p => p
  | .error _ => ⟨⟨[], [], []⟩, default⟩

/-- Witness for C6: on the concrete dataset `filesW`, the returned
`cam_params` satisfy the intrinsics formula for the last test image and the
training `camera_angle_x`. -/
theorem cam_params_from_train_fov_and_image_shape_witness :
    ∃ img, filesW.testImgs.getLast? = some img ∧
      loadResW.2.H = img.H ∧ loadResW.2.W = img.W ∧
      loadResW.2.f =
        (img.W : ℚ) / (2 * tanW (filesW.trainJson.camera_angle_x / 2)) :=
  cam_params_from_train_fov_and_image_shape filesW tanW loadResW.1 loadResW.2
    rfl

/-- C9: construction needs a non-empty test split — `H` and `W` are read from
the test loop's leaked `img` variable, so with zero test images `load_data`
raises (a NameError there, or an IndexError already in an earlier loop)
instead of returning samples and intrinsics. -/
theorem load_data_empty_test_fails (files : DatasetFiles) (tan : ℚ → ℚ)
    (h : files.testImgs = []) :
    ∃ e, load_data files tan = .error e := by
  unfold load_data
  rw [h]
  rcases buildSamples files.trainImgs files.trainJson.frames with e | ts
  · exact ⟨e, rfl⟩
  · rcases buildSamples files.valImgs files.valJson.frames with e | vs
    · exact ⟨e, rfl⟩
    · exact ⟨Err.nameError, rfl⟩

/-- A dataset identical to `filesW` except that the test split has no
images at all. -/
def filesNoTest : DatasetFiles :=
  { filesW with testImgs := [], testDepthImgs := [], testNormalImgs := [] }

/-- Witness for C9: on the concrete dataset with an empty test split,
`load_data` raises. -/
theorem load_data_empty_test_fails_witness :
    ∃ e, load_data filesNoTest tanW = .error e :=
  load_data_empty_test_fails filesNoTest tanW rfl

/-- C1: in the pool built for a split with B loaded samples, the pool is
6×(B·H·W) wide, and column `b·H·W + p` holds, in rows 0–2, sample `b`'s own
pose translation (column 3 of its transform) and, in rows 3–5, the product of
sample `b`'s own 3×3 rotation block with column `p` of the shared
camera-space ray basis — never an aggregate over images. -/
theorem pool_column_is_pose_and_rotated_basis (cp : CamParams)
    (ss : List Sample) (pool : Pool) (b p r : Nat)
    (hok : rays_dataset_split cp ss (rays_single_cam cp) = .ok pool)
    (hb : b < ss.length) (hp : p < cp.H * cp.W) (hr : r < 6) :
    pool.width = ss.length * (cp.H * cp.W) ∧
    pool.entry r (b * (cp.H * cp.W) + p) =
      (if r < 3 then (ss.getD b default).transform r 3
       else matmul3 (ss.getD b default).transform (rays_single_cam cp)
         (r - 3) p) := by
  have hHW : 0 < cp.H * cp.W := Nat.lt_of_le_of_lt (Nat.zero_le p) hp
  unfold rays_dataset_split at hok
  rw [if_neg (by omega)] at hok
  injection hok with h
  subst h
  have hdiv : (b * (cp.H * cp.W) + p) / (cp.H * cp.W) = b := by
    rw [Nat.mul_comm b, Nat.mul_add_div hHW, Nat.div_eq_of_lt hp,
      Nat.add_zero]
  have hmod : (b * (cp.H * cp.W) + p) % (cp.H * cp.W) = p := by
    rw [Nat.mul_comm b, Nat.mul_add_mod, Nat.mod_eq_of_lt hp]
  refine ⟨rfl, ?_⟩
  show (fun r c =>
      let transf_mats : Nat → Nat → Nat → ℚ :=
        fun b => (ss.getD b default).transform
      let dirs : Nat → Nat → Nat → ℚ :=
        fun b => matmul3 (transf_mats b) (rays_single_cam cp)
      let cam_origins : Nat → Nat → Nat → ℚ :=
        fun b r _ => transf_mats b r 3
      let catted : Nat → Nat → Nat → ℚ :=
        fun b r p => if r < 3 then cam_origins b r p else dirs b (r - 3) p
      let permuted : Nat → Nat → Nat → ℚ :=
        fun r b p => catted b r p
      permuted r (c / (cp.H * cp.W)) (c % (cp.H * cp.W)))
      r (b * (cp.H * cp.W) + p) = _
  simp only [hdiv, hmod]

/-- Concrete camera intrinsics H = 2, W = 2, f = 1 for the C1 witness. -/
def cpX : CamParams := { H := 2, W := 2, f := 1 }

/-- One concrete sample whose transform is the 4×4 identity. -/
def ssX : List Sample :=
  [{ img := imgW, img_depth := none, img_normal := none,
     transform := fun r c => if r = c then 1 else 0, metadata := idFrame }]

/-- The pool built from `cpX` and `ssX` (the error branch is dead). -/
def poolX : Pool :=
  match rays_dataset_split cpX ssX (rays_single_cam cpX) with
  | .ok pool => pool
  | .error _ => default

/-- Witness for C1: on the concrete split `ssX` with intrinsics `cpX`, column
`0·H·W + 2` of the pool carries in row 4 the rotated basis direction of
pixel 2. -/
theorem pool_column_is_pose_and_rotated_basis_witness :
    poolX.width = ssX.length * (cpX.H * cpX.W) ∧
    poolX.entry 4 (0 * (cpX.H * cpX.W) + 2) =
      (if 4 < 3 then (ssX.getD 0 default).transform 4 3
       else matmul3 (ssX.getD 0 default).transform (rays_single_cam cpX)
         (4 - 3) 2) :=
  pool_column_is_pose_and_rotated_basis cpX ssX poolX 0 2 4 rfl (by decide)
    (by decide) (by decide)

/-- When a split lists fewer pose entries than it has images, the sample
loop runs off the end of `frames` and raises IndexError. -/
theorem buildSamples_short_frames (imgs : List Image) (frames : List Frame)
    (h : frames.length < imgs.length) :
    buildSamples imgs frames = .error .indexError := by
  induction imgs generalizing frames with
  | nil => simp at h
  | cons img imgs ih =>
    cases frames with
    | nil => rfl
    | cons fr frs =>
      simp only [List.length_cons, Nat.add_lt_add_iff_right] at h
      unfold buildSamples
      rw [ih frs h]

/-- When a split lists at least as many pose entries as images, the sample
loop succeeds with one sample per image, pairing image `i` with frame `i`
and never touching the extra frames. -/
theorem buildSamples_enough_frames (imgs : List Image) (frames : List Frame)
    (h : imgs.length ≤ frames.length) :
    ∃ ss, buildSamples imgs frames = .ok ss ∧ ss.length = imgs.length := by
  induction imgs generalizing frames with
  | nil => exact ⟨[], rfl, rfl⟩
  | cons img imgs ih =>
    cases frames with
    | nil => simp at h
    | cons fr frs =>
      simp only [List.length_cons, Nat.add_le_add_iff_right] at h
      obtain ⟨rest, hrest, hlen⟩ := ih frs h
      refine ⟨{ img := img, img_depth := none, img_normal := none,
                transform := fr.transform_matrix, metadata := fr } :: rest,
        ?_, ?_⟩
      · unfold buildSamples
        rw [hrest]
      · simp [hlen]

/-- When the test split has at least as many depth images, normal images and
pose entries as color images, the test loop succeeds with one sample per
color image. -/
theorem buildTestSamples_enough (imgs ds ns : List Image)
    (frames : List Frame) (hd : imgs.length ≤ ds.length)
    (hn : imgs.length ≤ ns.length) (hf : imgs.length ≤ frames.length) :
    ∃ ss, buildTestSamples imgs ds ns frames = .ok ss ∧
      ss.length = imgs.length := by
  induction imgs generalizing ds ns frames with
  | nil => exact ⟨[], rfl, rfl⟩
  | cons img imgs ih =>
    cases ds with
    | nil => simp at hd
    | cons d ds =>
      cases ns with
      | nil => simp at hn
      | cons n ns =>
        cases frames with
        | nil => simp at hf
        | cons fr frs =>
          simp only [List.length_cons, Nat.add_le_add_iff_right] at hd hn hf
          obtain ⟨rest, hrest, hlen⟩ := ih ds ns frs hd hn hf
          refine ⟨{ img := img, img_depth := some d, img_normal := some n,
                    transform := fr.transform_matrix, metadata := fr } :: rest,
            ?_, ?_⟩
          · unfold buildTestSamples
            rw [hrest]
          · simp [hlen]

/-- A non-empty split's pool build succeeds, with width B·H·W. -/
theorem rays_dataset_split_ok (cp : CamParams) (ss : List Sample)
    (basis : Nat → Nat → ℚ) (h : ss.length ≠ 0) :
    ∃ pool, rays_dataset_split cp ss basis = .ok pool ∧
      pool.width = ss.length * (cp.H * cp.W) := by
  unfold rays_dataset_split
  rw [if_neg h]
  exact ⟨_, rfl, rfl⟩

/-- When all three splits are non-empty, `rays_dataset` succeeds and the
train pool is B·H·W wide. -/
theorem rays_dataset_ok (samples : Samples) (cp : CamParams)
    (h1 : samples.train.length ≠ 0) (h2 : samples.test.length ≠ 0)
    (h3 : samples.val.length ≠ 0) :
    ∃ pools, rays_dataset samples cp = .ok pools ∧
      pools.train.width = samples.train.length * (cp.H * cp.W) := by
  obtain ⟨pt, hpt, hwt⟩ :=
    rays_dataset_split_ok cp samples.train (rays_single_cam cp) h1
  obtain ⟨pte, hpte, _⟩ :=
    rays_dataset_split_ok cp samples.test (rays_single_cam cp) h2
  obtain ⟨pv, hpv, _⟩ :=
    rays_dataset_split_ok cp samples.val (rays_single_cam cp) h3
  unfold rays_dataset
  rw [hpt, hpte, hpv]
  exact ⟨_, rfl, hwt⟩

/-- Counterexample for C3 as stated: on the concrete dataset
`filesExtraPose`, whose train split has 1 image but 2 pose entries (more
poses than images), construction does NOT fail — it succeeds and silently
builds train samples (and hence a pool) zipped to the shorter image count. -/
theorem mismatched_counts_counterexample :
    filesExtraPose.trainImgs.length = 1 ∧
    filesExtraPose.trainJson.frames.length = 2 ∧
    ∃ rg, rayGeneratorInit filesExtraPose tanW = .ok rg ∧
      rg.samples.train.length = 1 := by
  exact ⟨rfl, rfl, _, rfl, rfl⟩

/-- C3 amended: construction fails only when a split has fewer pose entries
than images (IndexError from `frames[i]`); when a split has at least as many
pose entries as images — including strictly more — no alignment error is
raised: construction proceeds, silently zipping to the image count, with the
train pool built from exactly `trainImgs.length` samples. -/
theorem alignment_check_amended (files : DatasetFiles) (tan : ℚ → ℚ) :
    (files.trainJson.frames.length < files.trainImgs.length →
      ∃ e, rayGeneratorInit files tan = .error e) ∧
    (files.trainImgs.length ≤ files.trainJson.frames.length →
     files.valImgs.length ≤ files.valJson.frames.length →
     files.testImgs.length ≤ files.testDepthImgs.length →
     files.testImgs.length ≤ files.testNormalImgs.length →
     files.testImgs.length ≤ files.testJson.frames.length →
     files.trainImgs.length ≠ 0 → files.valImgs.length ≠ 0 →
     files.testImgs.length ≠ 0 →
      ∃ rg, rayGeneratorInit files tan = .ok rg ∧
        rg.samples.train.length = files.trainImgs.length ∧
        rg.rays_dataset.train.width =
          files.trainImgs.length * (rg.cam_params.H * rg.cam_params.W)) := by
  constructor
  · intro hlt
    refine ⟨Err.indexError, ?_⟩
    unfold rayGeneratorInit load_data
    rw [buildSamples_short_frames _ _ hlt]
  · intro h1 h2 hd hn h3 hne1 hne2 hne3
    obtain ⟨ts, hts, hlt⟩ := buildSamples_enough_frames _ _ h1
    obtain ⟨vs, hvs, hlv⟩ := buildSamples_enough_frames _ _ h2
    obtain ⟨tss, htss, hltest⟩ := buildTestSamples_enough _ _ _ _ hd hn h3
    have hne : files.testImgs ≠ [] := by
      intro hx
      rw [hx] at hne3
      exact hne3 rfl
    obtain ⟨img, himg⟩ :=
      Option.isSome_iff_exists.mp (List.getLast?_isSome.mpr hne)
    have hload : load_data files tan = .ok
        ({ train := ts, test := tss, val := vs },
         { H := img.H, W := img.W,
           f := (img.W : ℚ) /
             (2 * tan (files.trainJson.camera_angle_x / 2)) }) := by
      unfold load_data
      rw [hts, hvs, htss, himg]
    have h1' : ts.length ≠ 0 := by rw [hlt]; exact hne1
    have h2' : tss.length ≠ 0 := by rw [hltest]; exact hne3
    have h3' : vs.length ≠ 0 := by rw [hlv]; exact hne2
    obtain ⟨pools, hpools, hwidth⟩ := rays_dataset_ok
      { train := ts, test := tss, val := vs }
      { H := img.H, W := img.W,
        f := (img.W : ℚ) /
          (2 * tan (files.trainJson.camera_angle_x / 2)) }
      h1' h2' h3'
    refine ⟨{ samples := { train := ts, test := tss, val := vs },
              cam_params := { H := img.H, W := img.W,
                              f := (img.W : ℚ) /
                                (2 * tan (files.trainJson.camera_angle_x / 2)) },
              H := img.H, W := img.W,
              f := (img.W : ℚ) /
                (2 * tan (files.trainJson.camera_angle_x / 2)),
              rays_dataset := pools }, ?_, ?_, ?_⟩
    · unfold rayGeneratorInit
      simp only [hload, hpools]
    · exact hlt
    · show pools.train.width = files.trainImgs.length * (img.H * img.W)
      rw [show pools.train.width = ts.length * (img.H * img.W) from hwidth,
        hlt]

/-- A dataset identical to `filesW` except that the train split's transform
description has no frame at all for its single image. -/
def filesMissingPose : DatasetFiles :=
  { filesW with trainJson := { camera_angle_x := 1, frames := [] } }

/-- Witness for the amended C3, exercising both directions: with 0 pose
entries for 1 train image construction errors, and with 2 pose entries for 1
train image it succeeds with one train sample. -/
theorem alignment_check_amended_witness :
    (∃ e, rayGeneratorInit filesMissingPose tanW = .error e) ∧
    (∃ rg, rayGeneratorInit filesExtraPose tanW = .ok rg ∧
      rg.samples.train.length = filesExtraPose.trainImgs.length ∧
      rg.rays_dataset.train.width =
        filesExtraPose.trainImgs.length *
          (rg.cam_params.H * rg.cam_params.W)) :=
  ⟨(alignment_check_amended filesMissingPose tanW).1 (by decide),
   (alignment_check_amended filesExtraPose tanW).2 (by decide) (by decide)
     (by decide) (by decide) (by decide) (by decide) (by decide) (by decide)⟩
